import Mathlib

/-!
# Verification of the `rpaste` PrivateBin client (`src/rpaste/src/main.rs`)

This file gives a shallow embedding in Lean 4 of the client-side
paste-encryption pipeline of the `rpaste` tool and settles the spec claims
about it.

Modelling conventions:
* Rust byte slices (`&[u8]`, `Vec<u8>`) are `List Nat` with every element
  `< 256`; machine-integer overflow is made explicit with `% 2 ^ w`.
* Rust `String`/`&str` are Lean `String`; the byte view (`.as_bytes()`)
  is the UTF-8 encoding, computed by `strBytes`.
* Fallible Rust code returning `Result<_, PasteError>` becomes
  `Except PasteError _`.
* Randomness (`rand::rng().fill(..)`) is made explicit: the randomly
  filled buffers (passphrase, KDF salt, cipher IV) become parameters of
  the embedded functions.
* Arithmetic follows the semantics of the released binary (Rust with
  `overflow-checks = off`): `u128` addition wraps modulo `2 ^ 128` and the
  shift amount of `<<` on `u128` is masked modulo 128.
* All recursion is structural (often on an explicit fuel argument) so that
  every definition evaluates inside the kernel.
-/

/-! ## Generic helpers -/

/-- UTF-8 encoding of a single character, as byte values
(mirrors `char::encode_utf8` / Rust's `str::as_bytes`). -/
def utf8Bytes (c : Char) : List Nat :=
  let n := c.toNat
  if n < 0x80 then [n]
  else if n < 0x800 then [0xC0 ||| (n >>> 6), 0x80 ||| (n &&& 0x3F)]
  else if n < 0x10000 then
    [0xE0 ||| (n >>> 12), 0x80 ||| ((n >>> 6) &&& 0x3F), 0x80 ||| (n &&& 0x3F)]
  else
    [0xF0 ||| (n >>> 18), 0x80 ||| ((n >>> 12) &&& 0x3F),
     0x80 ||| ((n >>> 6) &&& 0x3F), 0x80 ||| (n &&& 0x3F)]

/-- The UTF-8 bytes of a string (Rust `str::as_bytes`). -/
def strBytes (s : String) : List Nat :=
  s.data.flatMap utf8Bytes

/-- Decimal digits of `x`, most significant first, `[]` for `0`.
Fuel-driven structural recursion (`fuel ≥ x` suffices). -/
def decDigitsAux : Nat → Nat → List Nat
  | 0, _ => []
  | fuel + 1, x => if x = 0 then [] else decDigitsAux fuel (x / 10) ++ [x % 10]

/-- Decimal rendering of a natural number (Rust `u32::to_string`). -/
def natToString (n : Nat) : String :=
  if n = 0 then "0"
  else String.mk ((decDigitsAux n n).map (fun d => Char.ofNat (48 + d)))

/-! ## Base58 (`base58_encode`, `main.rs` lines 150–169)

The Rust function accumulates the non-zero-prefix bytes of the input into a
single `u128` via `x += (*c as u128) << (8 * i)` over the reversed byte
list.  For inputs whose significant part exceeds 16 bytes this overflows:
in a release build the shift amount is masked modulo 128 and the addition
wraps modulo `2 ^ 128` (a debug build would panic).  The embedding encodes
exactly those release-build semantics. -/

/-- The Bitcoin Base58 alphabet used by the source. -/
def base58Alphabet : List Char :=
  "123456789ABCDEFGHJKLMNPQRSTUVWXYZabcdefghijkmnopqrstuvwxyz".data

/-- Base-58 digits of `x`, most significant first, `[]` for `0`
(the source's `while x > 0` loop that prepends `alphabet[x % 58]`). -/
def b58DigitsAux : Nat → Nat → List Nat
  | 0, _ => []
  | fuel + 1, x => if x = 0 then [] else b58DigitsAux fuel (x / 58) ++ [x % 58]

/-- Shallow embedding of `base58_encode` (`main.rs:150`).  The `u128`
accumulation `x += (*c as u128) << (8 * i)` is rendered with the masked
shift and wrapping addition of a release build. -/
def base58_encode (v : List Nat) : String :=
  let stripped := v.dropWhile (fun b => b == 0)
  let n_pad := v.length - stripped.length
  let x := stripped.reverse.enum.foldl
    (fun x p => (x + p.2 * 2 ^ ((8 * p.1) % 128)) % 2 ^ 128) 0
  String.mk (List.replicate n_pad '1' ++
    (b58DigitsAux x x).map (fun d => base58Alphabet.getD d '?'))

/-- Reference Bitcoin-style Base58 encoding, written from the spec's words
(§4.5): count the leading zero bytes, read the remaining bytes as one
big-endian unsigned integer of arbitrary size, write it in base 58 by
repeated division, and prefix one `'1'` per leading zero byte. -/
def base58_reference_encode (v : List Nat) : String :=
  let stripped := v.dropWhile (fun b => b == 0)
  let n_pad := v.length - stripped.length
  let x := stripped.foldl (fun x c => x * 256 + c) 0
  String.mk (List.replicate n_pad '1' ++
    (b58DigitsAux x x).map (fun d => base58Alphabet.getD d '?'))

/-- Value of one Base58 character, `none` if it is not in the alphabet. -/
def b58CharVal (c : Char) : Option Nat :=
  let i := base58Alphabet.indexOf c
  if i < 58 then some i else none

/-- Base-256 digits (big-endian bytes) of `x`, `[]` for `0`. -/
def beBytesAux : Nat → Nat → List Nat
  | 0, _ => []
  | fuel + 1, x => if x = 0 then [] else beBytesAux fuel (x / 256) ++ [x % 256]

/-- Reference Bitcoin-style Base58 decoding (spec §4.5 / §8): leading `'1'`
characters become leading zero bytes, the rest is read as a base-58 number
and written out as big-endian bytes. -/
def base58_reference_decode (s : String) : Option (List Nat) := do
  let vals ← s.data.mapM b58CharVal
  let n := vals.foldl (fun a d => a * 58 + d) 0
  let zeros := (s.data.takeWhile (fun c => c == '1')).length
  pure (List.replicate zeros 0 ++ beBytesAux n n)

/-! ## serde_json model

`serde_json::to_vec` on the derived `Serialize` impls emits compact JSON:
object fields in declaration order, no whitespace, strings escaped with
`\"`, `\\`, the short escapes `\b \t \n \f \r`, and `\u00XX` (lowercase
hex) for the remaining control characters. -/

/-- Lowercase hexadecimal digit characters (serde_json's escape table). -/
def hexDigitChar (n : Nat) : Char :=
  "0123456789abcdef".data.getD n '?'

/-- serde_json's escaping of one character inside a JSON string. -/
def escapeChar (c : Char) : List Char :=
  if c = '"' then ['\\', '"']
  else if c = '\\' then ['\\', '\\']
  else if c = Char.ofNat 8 then ['\\', 'b']
  else if c = Char.ofNat 9 then ['\\', 't']
  else if c = Char.ofNat 10 then ['\\', 'n']
  else if c = Char.ofNat 12 then ['\\', 'f']
  else if c = Char.ofNat 13 then ['\\', 'r']
  else if c.toNat < 32 then
    ['\\', 'u', '0', '0', hexDigitChar (c.toNat / 16), hexDigitChar (c.toNat % 16)]
  else [c]

/-- serde_json's escaping of a character sequence. -/
def escapeList : List Char → List Char
  | [] => []
  | c :: cs => escapeChar c ++ escapeList cs

/-- A JSON string literal as serde_json prints it. -/
def jsonStringLit (s : String) : String :=
  "\"" ++ String.mk (escapeList s.data) ++ "\""

/-- One `key:value` entry of a compact JSON object (a comma is prepended
for every field after the first, as serde's struct serializer does). -/
def serializeField (first : Bool) (key : String) (value : String) : String :=
  (if first then "" else ",") ++ "\"" ++ key ++ "\":" ++ value

/-- Comma-joined list items of a compact JSON array. -/
def joinComma : List String → String
  | [] => ""
  | [s] => s
  | s :: rest => s ++ "," ++ joinComma rest

/-- serde_json's serialization of `Option<String>`: `null` or the string. -/
def optStringJson : Option String → String
  | none => "null"
  | some s => jsonStringLit s

/-! ## Base64 (the `base64` crate's `general_purpose::STANDARD` engine) -/

/-- The standard Base64 alphabet. -/
def base64Alphabet : List Char :=
  "ABCDEFGHIJKLMNOPQRSTUVWXYZabcdefghijklmnopqrstuvwxyz0123456789+/".data

/-- Base64 (RFC 4648, with `=` padding) of a byte list, as characters. -/
def base64Chars : List Nat → List Char
  | [] => []
  | [a] =>
    [base64Alphabet.getD (a >>> 2) '?',
     base64Alphabet.getD ((a &&& 3) <<< 4) '?', '=', '=']
  | [a, b] =>
    [base64Alphabet.getD (a >>> 2) '?',
     base64Alphabet.getD (((a &&& 3) <<< 4) ||| (b >>> 4)) '?',
     base64Alphabet.getD ((b &&& 15) <<< 2) '?', '=']
  | a :: b :: c :: rest =>
    [base64Alphabet.getD (a >>> 2) '?',
     base64Alphabet.getD (((a &&& 3) <<< 4) ||| (b >>> 4)) '?',
     base64Alphabet.getD (((b &&& 15) <<< 2) ||| (c >>> 6)) '?',
     base64Alphabet.getD (c &&& 63) '?'] ++ base64Chars rest

/-- `general_purpose::STANDARD.encode` as a Lean function. -/
def base64_encode_str (bs : List Nat) : String :=
  String.mk (base64Chars bs)

/-! ## Data structures of `main.rs` -/

/-- Constants of `main.rs` lines 37–39. -/
def KDF_ITERATIONS : Nat := 100000

/-- Key size in bits (`main.rs:38`). -/
def KDF_KEYSIZE : Nat := 256

/-- The constant named `ADATA_SIZE` in the source: the IV size in bits. -/
def ADATA_SIZE : Nat := 96

/-- `PasteError` (`main.rs:42-56`).  Note: the enum has NO
`EncryptionError` variant; encryption failures reuse `InvalidResponse`. -/
inductive PasteError where
  | NoData : PasteError
  | FileOpen : String → Option String → PasteError
  | ApiError : String → Option Nat → Option String → PasteError
  | InvalidResponse : String → PasteError
  | InvalidOptions : String → PasteError
  | LanguageDetection : String → PasteError
deriving DecidableEq

/-- The Rust constructor name of a `PasteError` value. -/
def pasteErrorCtorName : PasteError → String
  | .NoData => "NoData"
  | .FileOpen _ _ => "FileOpen"
  | .ApiError _ _ _ => "ApiError"
  | .InvalidResponse _ => "InvalidResponse"
  | .InvalidOptions _ => "InvalidOptions"
  | .LanguageDetection _ => "LanguageDetection"

/-- `PasteData` (`main.rs:88-98`): `paste` is a plain `Option<String>`,
while `attachment` and `attachment_name` carry
`#[serde(skip_serializing_if = "Option::is_none")]`. -/
structure PasteData where
  paste : Option String
  attachment : Option String
  attachment_name : Option String
deriving DecidableEq

/-- `serde_json::to_vec(&PasteData { .. })` as a string: field order is the
declaration order; `paste` is always emitted (as `null` when `None`), the
two attachment fields are skipped when `None`. -/
def printPasteData (d : PasteData) : String :=
  "\x7b" ++ serializeField true "paste" (optStringJson d.paste)
      ++ (match d.attachment with
          | none => ""
          | some a => serializeField false "attachment" (jsonStringLit a))
      ++ (match d.attachment_name with
          | none => ""
          | some n => serializeField false "attachment_name" (jsonStringLit n))
      ++ "\x7d"

/-- `PasteAdata` (`main.rs:101-111`): `cipher` models the `[String; 8]`
array, the two flags are `u8` values. -/
structure PasteAdata where
  cipher : List String
  formatter : String
  opendiscussion : Nat
  burn : Nat
deriving DecidableEq

/-- `serde_json::to_vec(&PasteAdata { .. })` as a string: a JSON OBJECT
whose `cipher` field is an array of eight JSON STRINGS (the numeric
parameters were converted with `to_string()` in the source). -/
def printPasteAdata (a : PasteAdata) : String :=
  "\x7b" ++ serializeField true "cipher" ("[" ++ joinComma (a.cipher.map jsonStringLit) ++ "]")
      ++ serializeField false "formatter" (jsonStringLit a.formatter)
      ++ serializeField false "opendiscussion" (natToString a.opendiscussion)
      ++ serializeField false "burn" (natToString a.burn)
      ++ "\x7d"

/-- `PasteMeta` (`main.rs:127-131`). -/
structure PasteMeta where
  expire : String
deriving DecidableEq

/-- `Payload` (`main.rs:113-124`). -/
structure Payload where
  v : Nat
  adata : PasteAdata
  ct : String
  meta : PasteMeta
deriving DecidableEq

/-- `serde_json` serialization of `Payload` (the POSTed JSON document). -/
def printPayload (p : Payload) : String :=
  "\x7b" ++ serializeField true "v" (natToString p.v)
      ++ serializeField false "adata" (printPasteAdata p.adata)
      ++ serializeField false "ct" (jsonStringLit p.ct)
      ++ serializeField false "meta"
           ("\x7b" ++ serializeField true "expire" (jsonStringLit p.meta.expire) ++ "\x7d")
      ++ "\x7d"

/-! ## `prepare_paste_data` and `prepare_associated_data` -/

/-- Shallow embedding of `prepare_paste_data` (`main.rs:188-215`).  The
zlib compressor of the `flate2` crate is an external collaborator and is
passed in as a function `zlibDeflate`; the `compress = false` branch
returns the JSON bytes unchanged. -/
def prepare_paste_data (zlibDeflate : List Nat → List Nat)
    (plaintext attachment_name attachment : Option String)
    (compress : Bool) : List Nat :=
  let json_data := strBytes (printPasteData
    { paste := plaintext, attachment := attachment, attachment_name := attachment_name })
  if compress then zlibDeflate json_data else json_data

/-- The `PasteAdata` value built by `prepare_associated_data`
(`main.rs:226-240`). -/
def pasteAdataOf (cipher_iv kdf_salt : List Nat) (formatter : String)
    (opendiscussion burn : Bool) (compression_type : String) : PasteAdata :=
  { cipher := [base64_encode_str cipher_iv, base64_encode_str kdf_salt,
               natToString KDF_ITERATIONS, natToString KDF_KEYSIZE, natToString ADATA_SIZE,
               "aes", "gcm", compression_type],
    formatter := formatter,
    opendiscussion := if opendiscussion then 1 else 0,
    burn := if burn then 1 else 0 }

/-- Shallow embedding of `prepare_associated_data` (`main.rs:218-244`):
the serde_json byte serialization of the `PasteAdata` struct. -/
def prepare_associated_data (cipher_iv kdf_salt : List Nat) (formatter : String)
    (opendiscussion burn : Bool) (compression_type : String) : List Nat :=
  strBytes (printPasteAdata
    (pasteAdataOf cipher_iv kdf_salt formatter opendiscussion burn compression_type))

/-- The adata wire form the spec claims (spec §6 / C3), written from the
spec's words: a nested JSON array whose cipher entry carries the JSON
NUMBERS `100000`, `256` and `96`, beside the formatter string and the two
0/1 flags. -/
def spec_adata_wire (cipher_iv kdf_salt : List Nat) (formatter : String)
    (opendiscussion burn : Bool) (compression_type : String) : String :=
  "[[" ++ jsonStringLit (base64_encode_str cipher_iv) ++ ","
       ++ jsonStringLit (base64_encode_str kdf_salt)
       ++ ",100000,256,96,\"aes\",\"gcm\"," ++ jsonStringLit compression_type
  ++ "]," ++ jsonStringLit formatter
  ++ "," ++ (if opendiscussion then "1" else "0")
  ++ "," ++ (if burn then "1" else "0") ++ "]"

/-! ## JSON parsing (model of `serde_json` deserialization)

The program deserializes JSON in two places: `serde_json::from_slice::
<PasteAdata>` on the bytes it itself just serialized
(`privatebin_encrypt`, `main.rs:295`), and `serde_json::from_str::
<PasteResponse>` on the server's response body (`main.rs:394`).  The
parsers below model those calls on compact canonical input — the only
shape exercised in this development (serde would additionally accept
whitespace and reordered fields). -/

/-- Value of a hexadecimal digit character. -/
def hexVal (c : Char) : Option Nat :=
  if '0' ≤ c ∧ c ≤ '9' then some (c.toNat - 48)
  else if 'a' ≤ c ∧ c ≤ 'f' then some (c.toNat - 87)
  else if 'A' ≤ c ∧ c ≤ 'F' then some (c.toNat - 55)
  else none

/-- JSON string-body scanner: consumes characters (processing the escape
sequences `\" \\ \/ \b \t \n \f \r \u00XX`) until the closing quote, and
returns the decoded characters plus the rest of the input.  A raw control
character is a parse error, as in serde_json.  Fuel-driven; every step
consumes at least one character, so `fuel ≥ input length` suffices. -/
def parseStringBody : Nat → List Char → Option (List Char × List Char)
  | 0, _ => none
  | _ + 1, [] => none
  | fuel + 1, c :: rest =>
    if c = '"' then some ([], rest)
    else if c = '\\' then
      match rest with
      | [] => none
      | e :: rest2 =>
        if e = '"' then (parseStringBody fuel rest2).map (fun p => ('"' :: p.1, p.2))
        else if e = '\\' then (parseStringBody fuel rest2).map (fun p => ('\\' :: p.1, p.2))
        else if e = '/' then (parseStringBody fuel rest2).map (fun p => ('/' :: p.1, p.2))
        else if e = 'b' then (parseStringBody fuel rest2).map (fun p => (Char.ofNat 8 :: p.1, p.2))
        else if e = 't' then (parseStringBody fuel rest2).map (fun p => (Char.ofNat 9 :: p.1, p.2))
        else if e = 'n' then (parseStringBody fuel rest2).map (fun p => (Char.ofNat 10 :: p.1, p.2))
        else if e = 'f' then (parseStringBody fuel rest2).map (fun p => (Char.ofNat 12 :: p.1, p.2))
        else if e = 'r' then (parseStringBody fuel rest2).map (fun p => (Char.ofNat 13 :: p.1, p.2))
        else if e = 'u' then
          match rest2 with
          | h1 :: h2 :: h3 :: h4 :: rest3 => do
            let v1 ← hexVal h1
            let v2 ← hexVal h2
            let v3 ← hexVal h3
            let v4 ← hexVal h4
            (parseStringBody fuel rest3).map
              (fun p => (Char.ofNat (((v1 * 16 + v2) * 16 + v3) * 16 + v4) :: p.1, p.2))
          | _ => none
        else none
    else if c.toNat < 32 then none
    else (parseStringBody fuel rest).map (fun p => (c :: p.1, p.2))

/-- Parse a JSON string literal (opening quote, body, closing quote). -/
def parseJsonStringLit (cs : List Char) : Option (String × List Char) :=
  match cs with
  | '"' :: rest => (parseStringBody (rest.length + 1) rest).map
      (fun p => (String.mk p.1, p.2))
  | _ => none

/-- Consume an expected literal character sequence. -/
def expectChars : List Char → List Char → Option (List Char)
  | [], cs => some cs
  | _ :: _, [] => none
  | p :: ps, c :: cs => if c = p then expectChars ps cs else none

/-- Numeric value of a digit-character run. -/
def digitsVal (ds : List Char) : Nat :=
  ds.foldl (fun a c => a * 10 + (c.toNat - 48)) 0

/-- Parse a JSON non-negative integer literal (the only number shape this
program ever serializes or receives in the bodies modelled here). -/
def parseNatLit (cs : List Char) : Option (Nat × List Char) :=
  let ds := cs.takeWhile (fun c => c.isDigit)
  if ds.isEmpty then none
  else some (digitsVal ds, cs.dropWhile (fun c => c.isDigit))

/-- Parse exactly `n` comma-separated JSON string literals (the fixed-size
`[String; 8]` array element sequence). -/
def parseStringsSep : Nat → List Char → Option (List String × List Char)
  | 0, cs => some ([], cs)
  | 1, cs => (parseJsonStringLit cs).map (fun p => ([p.1], p.2))
  | n + 2, cs =>
    match parseJsonStringLit cs with
    | none => none
    | some (s, cs) =>
      match cs with
      | ',' :: cs => (parseStringsSep (n + 1) cs).map (fun p => (s :: p.1, p.2))
      | _ => none

/-- Model of `serde_json::from_slice::<PasteAdata>` on the canonical
compact serialization (the only input it receives in this program): the
field order is the struct's declaration order, the `cipher` array must
hold exactly 8 strings (`[String; 8]`), and the two flags are `u8`. -/
def parsePasteAdata (s : String) : Option PasteAdata := do
  let cs := s.data
  let cs ← expectChars "\x7b\"cipher\":[".data cs
  let (ciphers, cs) ← parseStringsSep 8 cs
  let cs ← expectChars "],\"formatter\":".data cs
  let (fmt, cs) ← parseJsonStringLit cs
  let cs ← expectChars ",\"opendiscussion\":".data cs
  let (od, cs) ← parseNatLit cs
  guard (od ≤ 255)
  let cs ← expectChars ",\"burn\":".data cs
  let (bd, cs) ← parseNatLit cs
  guard (bd ≤ 255)
  let cs ← expectChars ['}'] cs
  guard cs.isEmpty
  pure { cipher := ciphers, formatter := fmt, opendiscussion := od, burn := bd }

/-- A flat JSON value (string, unsigned number, or null) — the value
shapes occurring in the server-response bodies modelled here. -/
inductive FlatJson where
  | str : String → FlatJson
  | num : Nat → FlatJson
  | null : FlatJson
deriving DecidableEq

/-- Parse one flat JSON value. -/
def parseFlatValue (cs : List Char) : Option (FlatJson × List Char) :=
  match cs with
  | '"' :: _ => (parseJsonStringLit cs).map (fun p => (FlatJson.str p.1, p.2))
  | 'n' :: 'u' :: 'l' :: 'l' :: rest => some (FlatJson.null, rest)
  | _ => (parseNatLit cs).map (fun p => (FlatJson.num p.1, p.2))

/-- Parse the comma-separated `"key":value` fields of a flat JSON object. -/
def parseFlatObjFields : Nat → List Char → Option (List (String × FlatJson) × List Char)
  | 0, _ => none
  | fuel + 1, cs => do
    let (k, cs) ← parseJsonStringLit cs
    let cs ← expectChars [':'] cs
    let (v, cs) ← parseFlatValue cs
    match cs with
    | ',' :: rest => (parseFlatObjFields fuel rest).map (fun p => ((k, v) :: p.1, p.2))
    | _ => some ([(k, v)], cs)

/-- Parse a complete flat JSON object document. -/
def parseFlatObj (s : String) : Option (List (String × FlatJson)) :=
  match s.data with
  | '{' :: '}' :: rest => if rest.isEmpty then some [] else none
  | '{' :: cs => do
      let (fields, cs) ← parseFlatObjFields (cs.length + 1) cs
      let cs ← expectChars ['}'] cs
      guard cs.isEmpty
      pure fields
  | _ => none

/-- First field of the given name, if any (the bodies modelled here have
no duplicate keys, on which serde would error). -/
def flatLookup (fields : List (String × FlatJson)) (k : String) : Option FlatJson :=
  (fields.find? (fun p => p.1 == k)).map (fun p => p.2)

/-- serde deserialization of an `Option<u8>` field: absent or `null` is
`None`, a number in `0..=255` is `Some`, anything else a type error. -/
def getOptNatField (fields : List (String × FlatJson)) (k : String) : Option (Option Nat) :=
  match flatLookup fields k with
  | none => some none
  | some FlatJson.null => some none
  | some (FlatJson.num n) => if n ≤ 255 then some (some n) else none
  | some _ => none

/-- serde deserialization of an `Option<String>` field. -/
def getOptStrField (fields : List (String × FlatJson)) (k : String) : Option (Option String) :=
  match flatLookup fields k with
  | none => some none
  | some FlatJson.null => some none
  | some (FlatJson.str s) => some (some s)
  | some _ => none

/-- `PasteResponse` (`main.rs:134-147`); `error_message` is the JSON field
`message` (serde rename). -/
structure PasteResponse where
  status : Option Nat
  id : Option String
  url : Option String
  deletetoken : Option String
  error_message : Option String
deriving DecidableEq

/-- Model of `serde_json::from_str::<PasteResponse>`: every field is
optional, unknown fields are ignored. -/
def parsePasteResponse (body : String) : Option PasteResponse := do
  let fields ← parseFlatObj body
  let status ← getOptNatField fields "status"
  let id ← getOptStrField fields "id"
  let url ← getOptStrField fields "url"
  let dt ← getOptStrField fields "deletetoken"
  let msg ← getOptStrField fields "message"
  pure { status := status, id := id, url := url, deletetoken := dt, error_message := msg }

/-! ## HTTP round trip handling (`privatebin_send`, `main.rs:350-436`)

The transport is an external collaborator.  A single attempt's outcome is
`Except String HttpResponse`: `.error e` is a transport-level failure of
`.send()` with error text `e`, `.ok r` an HTTP response with status code
and body text.  The code performs the round trip exactly once, so its
network phase is a function of the FIRST attempt's outcome only; to make
retry behaviour observable, `privatebin_send_network` receives an oracle
giving the outcome every attempt WOULD have, and consults index 0 alone —
mirroring the single `client.post(url)...send()` call in the source. -/

/-- An HTTP response: status code and body text (reading the body, which
can itself fail in Rust, is folded into the transport outcome). -/
structure HttpResponse where
  status : Nat
  body : String
deriving DecidableEq

/-- The fixed operator-facing message the code selects for an empty body,
by HTTP status (`main.rs:374-385`). -/
def emptyBodyMessage (status : Nat) : String :=
  if status = 500 then
    "Server internal error (500) - The server encountered an error processing your request"
  else if status = 503 then
    "Service unavailable (503) - The server is temporarily unable to handle your request"
  else if status = 502 then
    "Bad gateway (502) - The server received an invalid response from upstream"
  else "Empty response from server"

/-- The message selected when the parsed `status` field is non-zero
(`main.rs:403-416`): 500/503/502 get fixed texts, anything else uses the
server's `message` field verbatim, defaulting to "Unknown error". -/
def errorStatusMessage (status : Nat) (errMsg : Option String) : String :=
  if status = 500 then
    "Server internal error (500) - The server encountered an error processing your request"
  else if status = 503 then
    "Service unavailable (503) - The server is temporarily unable to handle your request"
  else if status = 502 then
    "Bad gateway (502) - The server received an invalid response from upstream"
  else errMsg.getD "Unknown error"

/-- Extraction of the three required success fields (`main.rs:425-434`). -/
def extractResponseFields (r : PasteResponse) : Except PasteError (String × String × String) :=
  match r.id with
  | none => .error (.InvalidResponse "Missing ID")
  | some id =>
    match r.url with
    | none => .error (.InvalidResponse "Missing URL")
    | some url =>
      match r.deletetoken with
      | none => .error (.InvalidResponse "Missing delete token")
      | some dt => .ok (id, url, dt)

/-- Handling of one round-trip outcome (`main.rs:357-434`): transport
failure becomes `ApiError(msg, None, None)`; a blank body is classified by
HTTP status; then the body is parsed, a present non-zero `status` field
fails with `ApiError` (carrying the HTTP status and the raw body, the
code's `serde_json::to_value(&response_text)`), and otherwise the three
required fields are extracted. -/
def handle_response (resp : Except String HttpResponse) :
    Except PasteError (String × String × String) :=
  match resp with
  | .error e => .error (.ApiError e none none)
  | .ok r =>
    if r.body.data.all (fun c => c.isWhitespace) then
      .error (.ApiError (emptyBodyMessage r.status ++ " (Status: " ++ natToString r.status ++ ")")
        (some r.status) none)
    else
      match parsePasteResponse r.body with
      | none => .error (.InvalidResponse ("Failed to parse response as JSON: " ++ r.body))
      | some result =>
        match result.status with
        | some status_code =>
          if status_code ≠ 0 then
            .error (.ApiError (errorStatusMessage r.status result.error_message)
              (some r.status) (some r.body))
          else extractResponseFields result
        | none => extractResponseFields result

/-- The network phase of `privatebin_send`: the source calls `.send()`
exactly once, so only the outcome of attempt 0 is ever consulted. -/
def privatebin_send_network (oracle : Nat → Except String HttpResponse) :
    Except PasteError (String × String × String) :=
  handle_response (oracle 0)

/-! ## SHA-256, HMAC-SHA256, PBKDF2 (the `ring::pbkdf2` primitives)

`generate_kdf_key` calls `ring`'s `pbkdf2::derive` with
`PBKDF2_HMAC_SHA256`.  The algorithms are implemented here concretely
(FIPS 180-4 / RFC 2104 / RFC 2898); test-vector theorems below validate
the constants. -/

/-- Truncation to a 32-bit word. -/
def w32 (n : Nat) : Nat := n % 4294967296

/-- 32-bit right rotation. -/
def rotr32 (n w : Nat) : Nat := w32 ((w >>> n) ||| (w <<< (32 - n)))

/-- 32-bit bitwise complement. -/
def not32 (w : Nat) : Nat := 4294967295 ^^^ w

/-- SHA-256 Σ₀. -/
def bigSigma0 (w : Nat) : Nat := rotr32 2 w ^^^ rotr32 13 w ^^^ rotr32 22 w

/-- SHA-256 Σ₁. -/
def bigSigma1 (w : Nat) : Nat := rotr32 6 w ^^^ rotr32 11 w ^^^ rotr32 25 w

/-- SHA-256 σ₀. -/
def smallSigma0 (w : Nat) : Nat := rotr32 7 w ^^^ rotr32 18 w ^^^ (w >>> 3)

/-- SHA-256 σ₁. -/
def smallSigma1 (w : Nat) : Nat := rotr32 17 w ^^^ rotr32 19 w ^^^ (w >>> 10)

/-- SHA-256 Ch. -/
def chF (x y z : Nat) : Nat := (x &&& y) ^^^ (not32 x &&& z)

/-- SHA-256 Maj. -/
def majF (x y z : Nat) : Nat := (x &&& y) ^^^ (x &&& z) ^^^ (y &&& z)

/-- The 64 SHA-256 round constants. -/
def sha256K : List Nat :=
  [1116352408, 1899447441, 3049323471, 3921009573, 961987163,
   1508970993, 2453635748, 2870763221, 3624381080, 310598401,
   607225278, 1426881987, 1925078388, 2162078206, 2614888103,
   3248222580, 3835390401, 4022224774, 264347078, 604807628,
   770255983, 1249150122, 1555081692, 1996064986, 2554220882,
   2821834349, 2952996808, 3210313671, 3336571891, 3584528711,
   113926993, 338241895, 666307205, 773529912, 1294757372,
   1396182291, 1695183700, 1986661051, 2177026350, 2456956037,
   2730485921, 2820302411, 3259730800, 3345764771, 3516065817,
   3600352804, 4094571909, 275423344, 430227734, 506948616,
   659060556, 883997877, 958139571, 1322822218, 1537002063,
   1747873779, 1955562222, 2024104815, 2227730452, 2361852424,
   2428436474, 2756734187, 3204031479, 3329325298]

/-- The SHA-256 working state / chaining value: eight 32-bit words. -/
structure Sha256H where
  h0 : Nat
  h1 : Nat
  h2 : Nat
  h3 : Nat
  h4 : Nat
  h5 : Nat
  h6 : Nat
  h7 : Nat

/-- The SHA-256 initial hash value. -/
def sha256Init : Sha256H :=
  ⟨1779033703, 3144134277, 1013904242, 2773480762,
   1359893119, 2600822924, 528734635, 1541459225⟩

/-- The first 16 schedule words of a 64-byte block (big-endian). -/
def blockWords (block : List Nat) : List Nat :=
  (List.range 16).map (fun i =>
    (block.getD (4 * i) 0 <<< 24) ||| (block.getD (4 * i + 1) 0 <<< 16) |||
    (block.getD (4 * i + 2) 0 <<< 8) ||| block.getD (4 * i + 3) 0)

/-- Extension of the message schedule by `fuel` further words. -/
def extendW : Nat → List Nat → List Nat
  | 0, ws => ws
  | fuel + 1, ws =>
    let n := ws.length
    let next := w32 (ws.getD (n - 16) 0 + smallSigma0 (ws.getD (n - 15) 0) +
      ws.getD (n - 7) 0 + smallSigma1 (ws.getD (n - 2) 0))
    extendW fuel (ws ++ [next])

/-- One SHA-256 round. -/
def sha256Round (st : Sha256H) (k w : Nat) : Sha256H :=
  let t1 := w32 (st.h7 + bigSigma1 st.h4 + chF st.h4 st.h5 st.h6 + k + w)
  let t2 := w32 (bigSigma0 st.h0 + majF st.h0 st.h1 st.h2)
  ⟨w32 (t1 + t2), st.h0, st.h1, st.h2, w32 (st.h3 + t1), st.h4, st.h5, st.h6⟩

/-- Compression of one 64-byte block into the chaining value. -/
def sha256Compress (st : Sha256H) (block : List Nat) : Sha256H :=
  let ws := extendW 48 (blockWords block)
  let f := (List.range 64).foldl
    (fun s i => sha256Round s (sha256K.getD i 0) (ws.getD i 0)) st
  ⟨w32 (st.h0 + f.h0), w32 (st.h1 + f.h1), w32 (st.h2 + f.h2), w32 (st.h3 + f.h3),
   w32 (st.h4 + f.h4), w32 (st.h5 + f.h5), w32 (st.h6 + f.h6), w32 (st.h7 + f.h7)⟩

/-- Big-endian 8-byte rendering of a (64-bit) number. -/
def be64Bytes (n : Nat) : List Nat :=
  [(n >>> 56) &&& 255, (n >>> 48) &&& 255, (n >>> 40) &&& 255, (n >>> 32) &&& 255,
   (n >>> 24) &&& 255, (n >>> 16) &&& 255, (n >>> 8) &&& 255, n &&& 255]

/-- Big-endian 4-byte rendering of a (32-bit) number. -/
def be32Bytes (n : Nat) : List Nat :=
  [(n >>> 24) &&& 255, (n >>> 16) &&& 255, (n >>> 8) &&& 255, n &&& 255]

/-- Split into 64-byte chunks (fuel ≥ length suffices). -/
def chunks64 : Nat → List Nat → List (List Nat)
  | 0, _ => []
  | _, [] => []
  | fuel + 1, l => l.take 64 :: chunks64 fuel (l.drop 64)

/-- SHA-256 of a byte list (FIPS 180-4). -/
def sha256 (msg : List Nat) : List Nat :=
  let padK := (120 - ((msg.length + 1) % 64)) % 64
  let padded := msg ++ 0x80 :: (List.replicate padK 0 ++ be64Bytes (8 * msg.length))
  let f := (chunks64 padded.length padded).foldl sha256Compress sha256Init
  be32Bytes f.h0 ++ be32Bytes f.h1 ++ be32Bytes f.h2 ++ be32Bytes f.h3 ++
  be32Bytes f.h4 ++ be32Bytes f.h5 ++ be32Bytes f.h6 ++ be32Bytes f.h7

/-- Bytewise XOR (the common length; HMAC and PBKDF2 only use it on
equal-length operands). -/
def xorBytes (a b : List Nat) : List Nat :=
  List.zipWith (fun x y => x ^^^ y) a b

/-- HMAC-SHA256 (RFC 2104). -/
def hmacSha256 (key msg : List Nat) : List Nat :=
  let k0 := if 64 < key.length then sha256 key else key
  let kpad := k0 ++ List.replicate (64 - k0.length) 0
  sha256 ((kpad.map (fun b => b ^^^ 0x5C)) ++
    sha256 ((kpad.map (fun b => b ^^^ 0x36)) ++ msg))

/-- The iterated-XOR inner loop of one PBKDF2 block: `fuel` further
iterations after `U₁`, accumulating into `acc`. -/
def pbkdf2FAux (pwd : List Nat) : Nat → List Nat → List Nat → List Nat
  | 0, _, acc => acc
  | j + 1, u, acc =>
    let u2 := hmacSha256 pwd u
    pbkdf2FAux pwd j u2 (xorBytes acc u2)

/-- One PBKDF2 output block `F(pwd, salt, c, i)` (RFC 2898). -/
def pbkdf2F (pwd salt : List Nat) (c i : Nat) : List Nat :=
  let u1 := hmacSha256 pwd (salt ++ be32Bytes i)
  pbkdf2FAux pwd (c - 1) u1 u1

/-- PBKDF2-HMAC-SHA256 (RFC 2898); `ring::pbkdf2::derive` fills a buffer
of `dkLen` bytes with exactly this function. -/
def pbkdf2HmacSha256 (pwd salt : List Nat) (c dkLen : Nat) : List Nat :=
  (((List.range ((dkLen + 31) / 32)).flatMap
    (fun i => pbkdf2F pwd salt c (i + 1)))).take dkLen

/-! ## AES-256-GCM (the `ring::aead` seal operation)

The AES-256 block permutation itself lives inside `ring` and its internals
are irrelevant to every property proved here, so it is a parameter
`aesBlock : key → block → block` of the GCM mode construction (its output
is normalized to exactly 16 bytes, as the real cipher guarantees). -/

/-- Normalize a block to exactly 16 bytes (the real AES block always is). -/
def take16pad (b : List Nat) : List Nat :=
  (b ++ List.replicate 16 0).take 16

/-- A GCM counter block: the 12-byte nonce with a 32-bit counter. -/
def gcmCounterBlock (nonce : List Nat) (i : Nat) : List Nat :=
  nonce ++ be32Bytes i

/-- The CTR keystream for `n` bytes of plaintext (counters start at 2;
counter 1 is reserved for the tag mask). -/
def gcmKeystream (aesBlock : List Nat → List Nat → List Nat)
    (key nonce : List Nat) (n : Nat) : List Nat :=
  (((List.range (n / 16 + 1)).flatMap
    (fun i => take16pad (aesBlock key (gcmCounterBlock nonce (i + 2)))))).take n

/-- GCM ciphertext: plaintext XOR keystream. -/
def gcmCiphertext (aesBlock : List Nat → List Nat → List Nat)
    (key nonce pt : List Nat) : List Nat :=
  xorBytes pt (gcmKeystream aesBlock key nonce pt.length)

/-- Big-endian value of a byte list. -/
def bytesToNat (bs : List Nat) : Nat :=
  bs.foldl (fun a b => a * 256 + b) 0

/-- One step of the GF(2^128) product: process the top bit of `y`. -/
def gfMulAux : Nat → Nat → Nat → Nat → Nat
  | 0, z, _, _ => z
  | fuel + 1, z, v, y =>
    let z2 := if (y >>> 127) &&& 1 = 1 then z ^^^ v else z
    let v2 := if v &&& 1 = 1 then (v >>> 1) ^^^ (0xe1 <<< 120) else v >>> 1
    gfMulAux fuel z2 v2 ((y <<< 1) % (2 ^ 128))

/-- The GF(2^128) product of GCM (NIST SP 800-38D). -/
def gfMul (x y : Nat) : Nat := gfMulAux 128 0 x y

/-- Split into 16-byte chunks (fuel ≥ length suffices). -/
def chunks16 : Nat → List Nat → List (List Nat)
  | 0, _ => []
  | _, [] => []
  | fuel + 1, l => l.take 16 :: chunks16 fuel (l.drop 16)

/-- GHASH over zero-padded 16-byte blocks. -/
def ghashBlocks (h : Nat) (blocks : List (List Nat)) : Nat :=
  blocks.foldl (fun y b => gfMul (y ^^^ bytesToNat (take16pad b)) h) 0

/-- GHASH of the AAD and ciphertext with the length block appended. -/
def ghash (h : Nat) (aad ct : List Nat) : Nat :=
  ghashBlocks h (chunks16 aad.length aad ++ chunks16 ct.length ct ++
    [be64Bytes (8 * aad.length) ++ be64Bytes (8 * ct.length)])

/-- Big-endian 16-byte rendering of a 128-bit number. -/
def natToBytes16 (x : Nat) : List Nat :=
  (List.range 16).map (fun i => (x >>> (8 * (15 - i))) &&& 255)

/-- The 16-byte GCM authentication tag. -/
def gcmTag (aesBlock : List Nat → List Nat → List Nat)
    (key nonce aad ct : List Nat) : List Nat :=
  let h := bytesToNat (take16pad (aesBlock key (List.replicate 16 0)))
  xorBytes (natToBytes16 (ghash h aad ct))
    (take16pad (aesBlock key (gcmCounterBlock nonce 1)))

/-- GCM sealing: ciphertext with the 16-byte tag appended
(`seal_in_place_append_tag`). -/
def gcmSeal (aesBlock : List Nat → List Nat → List Nat)
    (key nonce aad pt : List Nat) : List Nat :=
  let ct := gcmCiphertext aesBlock key nonce pt
  ct ++ gcmTag aesBlock key nonce aad ct

/-- The AEAD sealing step of `privatebin_encrypt` (`main.rs:283-292`) with
the error mapping of the source: `UnboundKey::new(&AES_256_GCM, ..)`
rejects a key that is not 32 bytes (mapped to
`InvalidResponse("Failed to create AES key")`),
`Nonce::try_assume_unique_for_key` rejects a nonce that is not 12 bytes
(mapped to `InvalidResponse("Invalid nonce")`), and otherwise sealing
succeeds and appends the 16-byte tag. -/
def aead_seal (aesBlock : List Nat → List Nat → List Nat)
    (key nonce aad pt : List Nat) : Except PasteError (List Nat) :=
  if key.length ≠ 32 then .error (.InvalidResponse "Failed to create AES key")
  else if nonce.length ≠ 12 then .error (.InvalidResponse "Invalid nonce")
  else .ok (gcmSeal aesBlock key nonce aad pt)

/-! ## `generate_kdf_key`, `privatebin_encrypt`, `privatebin_send` -/

/-- The `final_passphrase` computed in `privatebin_encrypt`
(`main.rs:258-264`): the passphrase with the password's bytes appended
verbatim when a password is given. -/
def final_passphrase (passphrase : List Nat) : Option String → List Nat
  | some pwd => passphrase ++ strBytes pwd
  | none => passphrase

/-- Shallow embedding of `generate_kdf_key` (`main.rs:172-185`); the
randomly generated 8-byte salt is the explicit first argument. -/
def generate_kdf_key (kdf_salt passphrase : List Nat) : List Nat :=
  pbkdf2HmacSha256 passphrase kdf_salt KDF_ITERATIONS (KDF_KEYSIZE / 8)

/-- The body of `privatebin_encrypt` (`main.rs:247-299`) after the
`final_passphrase` has been assembled.  The zlib compressor, the AES block
permutation, and the two random buffers (8-byte KDF salt, 12-byte cipher
IV) are explicit parameters.  After sealing, the source re-parses the
adata bytes with `serde_json::from_slice::<PasteAdata>` (`main.rs:295`)
and returns the struct beside the base64 ciphertext. -/
def privatebin_encrypt_body (zlibDeflate : List Nat → List Nat)
    (aesBlock : List Nat → List Nat → List Nat)
    (kdf_salt cipher_iv : List Nat)
    (final_pass : List Nat)
    (plaintext : Option String) (formatter : String)
    (attachment_name attachment : Option String)
    (compress burn opendiscussion : Bool) :
    Except PasteError (PasteAdata × String) :=
  let kdf_key := generate_kdf_key kdf_salt final_pass
  let compression_type := if compress then "zlib" else "none"
  let paste_blob := prepare_paste_data zlibDeflate plaintext attachment_name attachment compress
  let adata_str := printPasteAdata
    (pasteAdataOf cipher_iv kdf_salt formatter opendiscussion burn compression_type)
  match aead_seal aesBlock kdf_key cipher_iv (strBytes adata_str) paste_blob with
  | .error e => .error e
  | .ok data =>
    match parsePasteAdata adata_str with
    | some adata => .ok (adata, base64_encode_str data)
    | none => .error (.InvalidResponse "adata deserialization failed")

/-- `privatebin_encrypt` itself: assemble the `final_passphrase`
(`main.rs:258-264`) and run the body. -/
def privatebin_encrypt (zlibDeflate : List Nat → List Nat)
    (aesBlock : List Nat → List Nat → List Nat)
    (kdf_salt cipher_iv : List Nat)
    (passphrase : List Nat) (password : Option String)
    (plaintext : Option String) (formatter : String)
    (attachment_name attachment : Option String)
    (compress burn opendiscussion : Bool) :
    Except PasteError (PasteAdata × String) :=
  privatebin_encrypt_body zlibDeflate aesBlock kdf_salt cipher_iv
    (final_passphrase passphrase password) plaintext formatter
    attachment_name attachment compress burn opendiscussion

/-- Shallow embedding of `privatebin_send` (`main.rs:302-437`): input
validation, encryption, URL validation, the single network round trip
(attempt 0 of the oracle), and the Base58 encoding of the passphrase as
the returned shareable secret.  The POSTed JSON document is
`printPayload ⟨2, adata, ct, ⟨expire⟩⟩`. -/
def privatebin_send (zlibDeflate : List Nat → List Nat)
    (aesBlock : List Nat → List Nat → List Nat)
    (passphrase kdf_salt cipher_iv : List Nat)
    (oracle : Nat → Except String HttpResponse)
    (url : String) (password plaintext : Option String) (formatter : String)
    (attachment_name attachment : Option String)
    (compress burn opendiscussion : Bool) (expire : String) :
    Except PasteError (String × String × String × String) :=
  if plaintext.isNone && attachment.isNone then
    .error (.InvalidOptions "No content to paste")
  else
    match privatebin_encrypt zlibDeflate aesBlock kdf_salt cipher_iv passphrase
        password plaintext formatter attachment_name attachment
        compress burn opendiscussion with
    | .error e => .error e
    | .ok (adata, ciphertext) =>
      let _postedDocument :=
        printPayload { v := 2, adata := adata, ct := ciphertext, meta := { expire := expire } }
      if ¬("http://".data.isPrefixOf url.data ∨ "https://".data.isPrefixOf url.data) then
        .error (.InvalidOptions ("Invalid URL: " ++ url))
      else
        match handle_response (oracle 0) with
        | .error e => .error e
        | .ok (id, rurl, dt) => .ok (id, rurl, dt, base58_encode passphrase)

/-- `DEFAULT_PASSWORD` (`main.rs:35`): the CLI's `--password` default, an
empty string, which `main` always passes as `Some(..)` to
`privatebin_send`. -/
def DEFAULT_PASSWORD : String := ""

/-- A transport oracle whose first attempt fails at the transport level
while every later attempt would succeed — the scenario distinguishing a
retrying client from a single-attempt one. -/
def retryProbeOracle : Nat → Except String HttpResponse := fun n =>
  if n = 0 then .error "connection reset by peer"
  else .ok { status := 200,
             body := "\x7b\"status\":0,\"id\":\"abc\",\"url\":\"/?abc\",\"deletetoken\":\"tok\"\x7d" }

deriving instance DecidableEq for Except

/-! ## Claims C1, C2: the Base58 overflow bug

`base58_encode` accumulates the significant bytes in a `u128`.  Any input
whose significant part exceeds 16 bytes overflows, so the 32-byte
passphrases passed at the call site (`privatebin_send`, `main.rs:435`) are
encoded wrongly and the shareable secret does not decode back to the
passphrase. -/

set_option maxRecDepth 8000 in
/-- C2: `base58_encode` does NOT equal the Bitcoin-style reference Base58
encoding on every byte string: on the 17-byte input `[1, 0, …, 0]`
(value `2^128`) the release-build `u128` wrap-around makes the code return
`"2"`, while the reference encoding of `2^128` is a different (22-character)
string and the reference decode of `"2"` does not return the input.  The
zero-run handling itself is correct (`[0,0,1]` encodes as `"112"`). -/
theorem base58_encode_u128_overflow :
  base58_encode (1 :: List.replicate 16 0) = "2"
  ∧ base58_reference_encode (1 :: List.replicate 16 0) ≠ base58_encode (1 :: List.replicate 16 0)
  ∧ base58_reference_decode (base58_encode (1 :: List.replicate 16 0))
      ≠ some (1 :: List.replicate 16 0)
  ∧ base58_encode [0, 0, 1] = "112"
  ∧ base58_reference_encode [0, 0, 1] = "112" :=
  ⟨by decide, by decide, by decide, by decide, by decide⟩

set_option maxRecDepth 8000 in
/-- C1: the create-then-decrypt round trip fails on the code: for a 32-byte
passphrase (here all bytes `0x01`, as the RNG may well produce) the
`shareableSecret` returned by `privatebin_send` is `base58_encode` of the
passphrase, and the reference Base58 decode of that string does NOT recover
the 32-byte passphrase (the `u128` accumulator of `base58_encode` wraps),
so the reference decrypt cannot re-derive the key.  The reference encoding
of the same passphrase does round-trip, isolating the fault in the code. -/
theorem createPaste_roundtrip_broken_at_shareableSecret :
  base58_reference_decode (base58_encode (List.replicate 32 1))
      ≠ some (List.replicate 32 1)
  ∧ base58_reference_decode (base58_reference_encode (List.replicate 32 1))
      = some (List.replicate 32 1) :=
  ⟨by decide, by decide⟩

/-! ## Claim C3: the adata wire format -/

set_option maxRecDepth 8000 in
/-- C3: the `adata` value the code serializes is a JSON OBJECT whose
`cipher` array holds the iteration count, key size and nonce size as JSON
STRINGS (`"100000"`, `"256"`, `"96"`), not the nested JSON array with the
numbers `100000`, `256`, `96` that the claim describes: at a concrete
IV/salt the two byte sequences differ. -/
theorem prepare_associated_data_object_not_array :
  prepare_associated_data (List.replicate 12 0) (List.replicate 8 0)
      "plaintext" false false "zlib"
    = strBytes "\x7b\"cipher\":[\"AAAAAAAAAAAAAAAA\",\"AAAAAAAAAAA=\",\"100000\",\"256\",\"96\",\"aes\",\"gcm\",\"zlib\"],\"formatter\":\"plaintext\",\"opendiscussion\":0,\"burn\":0\x7d"
  ∧ spec_adata_wire (List.replicate 12 0) (List.replicate 8 0)
      "plaintext" false false "zlib"
    = "[[\"AAAAAAAAAAAAAAAA\",\"AAAAAAAAAAA=\",100000,256,96,\"aes\",\"gcm\",\"zlib\"],\"plaintext\",0,0]"
  ∧ prepare_associated_data (List.replicate 12 0) (List.replicate 8 0)
      "plaintext" false false "zlib"
    ≠ strBytes (spec_adata_wire (List.replicate 12 0) (List.replicate 8 0)
        "plaintext" false false "zlib") :=
  ⟨by decide, by decide, by decide⟩

/-! ## Claim C5: `prepare_paste_data` serialization -/

/-- C5 counterexample: not every absent optional field is omitted.  For an
attachment-only paste (no text) the `paste` field is serialized as
`null` — `paste` lacks the `skip_serializing_if` attribute — so the blob is
`{"paste":null,…}` rather than omitting the key. -/
theorem prepare_paste_data_null_paste :
  prepare_paste_data id none (some "file.txt") (some "data:text/plain;base64,aGk=") false
    = strBytes "\x7b\"paste\":null,\"attachment\":\"data:text/plain;base64,aGk=\",\"attachment_name\":\"file.txt\"\x7d"
  ∧ prepare_paste_data id none (some "file.txt") (some "data:text/plain;base64,aGk=") false
    ≠ strBytes "\x7b\"attachment\":\"data:text/plain;base64,aGk=\",\"attachment_name\":\"file.txt\"\x7d" :=
  ⟨by decide, by decide⟩

/-- C5 (amended): `prepare_paste_data` with `compress = false` serializes
`{paste, attachment, attachment_name}` to compact JSON in that fixed key
order; `attachment`/`attachment_name` are omitted when absent, while an
absent `paste` is serialized as `null` (not omitted).  In particular, for
text `"hello"` and no attachment the blob is exactly the bytes
`{"paste":"hello"}`. -/
theorem prepare_paste_data_serialization (z : List Nat → List Nat)
    (p an ad : Option String) :
  prepare_paste_data z p an ad false
    = strBytes ("\x7b\"paste\":" ++ optStringJson p
        ++ (match ad with
            | some a => ",\"attachment\":" ++ jsonStringLit a
            | none => "")
        ++ (match an with
            | some n => ",\"attachment_name\":" ++ jsonStringLit n
            | none => "")
        ++ "\x7d")
  ∧ prepare_paste_data z (some "hello") none none false
      = strBytes "\x7b\"paste\":\"hello\"\x7d" := by
  constructor
  · show strBytes _ = strBytes _
    congr 1
    apply String.ext
    cases an <;> cases ad <;>
      simp [printPasteData, serializeField, optStringJson, jsonStringLit,
        String.data_append]
  · show strBytes (printPasteData
        { paste := some "hello", attachment := none, attachment_name := none })
      = strBytes "\x7b\"paste\":\"hello\"\x7d"
    decide

/-! ## Validation of the hash primitives against published test vectors -/

set_option maxRecDepth 8000 in
/-- FIPS 180-4 test vector: SHA-256 of the empty message. -/
theorem sha256_empty_vector :
  sha256 [] = [0xe3,0xb0,0xc4,0x42,0x98,0xfc,0x1c,0x14,0x9a,0xfb,0xf4,0xc8,0x99,0x6f,0xb9,0x24,
               0x27,0xae,0x41,0xe4,0x64,0x9b,0x93,0x4c,0xa4,0x95,0x99,0x1b,0x78,0x52,0xb8,0x55] := by
  decide

set_option maxRecDepth 8000 in
/-- FIPS 180-4 test vector: SHA-256 of `"abc"`. -/
theorem sha256_abc_vector :
  sha256 (strBytes "abc")
    = [0xba,0x78,0x16,0xbf,0x8f,0x01,0xcf,0xea,0x41,0x41,0x40,0xde,0x5d,0xae,0x22,0x23,
       0xb0,0x03,0x61,0xa3,0x96,0x17,0x7a,0x9c,0xb4,0x10,0xff,0x61,0xf2,0x00,0x15,0xad] := by
  decide

set_option maxRecDepth 8000 in
/-- RFC 4231 test case 1: HMAC-SHA256 with a 20-byte `0x0b` key. -/
theorem hmacSha256_rfc4231_vector :
  hmacSha256 (List.replicate 20 0x0b) (strBytes "Hi There")
    = [0xb0,0x34,0x4c,0x61,0xd8,0xdb,0x38,0x53,0x5c,0xa8,0xaf,0xce,0xaf,0x0b,0xf1,0x2b,
       0x88,0x1d,0xc2,0x00,0xc9,0x83,0x3d,0xa7,0x26,0xe9,0x37,0x6c,0x2e,0x32,0xcf,0xf7] := by
  decide

set_option maxRecDepth 8000 in
/-- PBKDF2-HMAC-SHA256 test vector (password "password", salt "salt",
2 iterations, 32-byte key). -/
theorem pbkdf2_vector :
  pbkdf2HmacSha256 (strBytes "password") (strBytes "salt") 2 32
    = [0xae,0x4d,0x0c,0x95,0xaf,0x6b,0x46,0xd3,0x2d,0x0a,0xdf,0xf9,0x28,0xf0,0x6d,0xd0,
       0x2a,0x30,0x3f,0x8e,0xf3,0xc2,0x51,0xdf,0xd6,0xe2,0xd8,0x5a,0x95,0x47,0x4c,0x43] := by
  decide

/-! ## Length lemmas for the key-derivation chain -/

/-- SHA-256 digests are exactly 32 bytes. -/
theorem sha256_length (m : List Nat) : (sha256 m).length = 32 := by
  simp [sha256, be32Bytes]

/-- HMAC-SHA256 outputs are exactly 32 bytes. -/
theorem hmacSha256_length (k m : List Nat) : (hmacSha256 k m).length = 32 :=
  sha256_length _

/-- The PBKDF2 inner loop preserves the 32-byte accumulator length. -/
theorem pbkdf2FAux_length (pwd : List Nat) :
    ∀ (j : Nat) (u acc : List Nat), acc.length = 32 →
      (pbkdf2FAux pwd j u acc).length = 32 := by
  intro j
  induction j with
  | zero => intro u acc h; exact h
  | succ j ih =>
    intro u acc h
    simp only [pbkdf2FAux]
    apply ih
    simp [xorBytes, h, hmacSha256_length]

/-- Each PBKDF2 output block is exactly 32 bytes. -/
theorem pbkdf2F_length (pwd salt : List Nat) (c i : Nat) :
    (pbkdf2F pwd salt c i).length = 32 := by
  unfold pbkdf2F
  exact pbkdf2FAux_length pwd _ _ _ (hmacSha256_length _ _)

/-- `generate_kdf_key` always produces exactly 32 bytes of key. -/
theorem generate_kdf_key_length (salt pass : List Nat) :
    (generate_kdf_key salt pass).length = 32 := by
  unfold generate_kdf_key pbkdf2HmacSha256
  rw [show (KDF_KEYSIZE / 8 + 31) / 32 = 1 from rfl,
    show List.range 1 = [0] from rfl,
    show KDF_KEYSIZE / 8 = 32 from rfl]
  simp [pbkdf2F_length]

/-! ## Claim C6: the derived key -/

/-- C6: for every passphrase and optional password, the derived key is the
PBKDF2-HMAC-SHA256 stretch, with exactly 100000 iterations, of
`kdfInput = passphrase ++ password bytes` (the password appended verbatim
with no separator when present and contributing nothing when absent) with
the given salt, and the key is exactly 32 bytes. -/
theorem generate_kdf_key_pbkdf2_spec (passphrase : List Nat)
    (password : Option String) (salt : List Nat) :
  generate_kdf_key salt (final_passphrase passphrase password)
      = pbkdf2HmacSha256 (passphrase ++ (password.elim [] strBytes)) salt 100000 32
  ∧ (generate_kdf_key salt (final_passphrase passphrase password)).length = 32
  ∧ final_passphrase passphrase none = passphrase
  ∧ (∀ pwd, final_passphrase passphrase (some pwd) = passphrase ++ strBytes pwd) := by
  refine ⟨?_, generate_kdf_key_length _ _, rfl, fun pwd => rfl⟩
  cases password with
  | none => simp [final_passphrase, generate_kdf_key, KDF_ITERATIONS, KDF_KEYSIZE]
  | some p => simp [final_passphrase, generate_kdf_key, KDF_ITERATIONS, KDF_KEYSIZE]

/-! ## Claim C10: the empty password is the same as no password -/

/-- C10: with salt and IV held fixed, `privatebin_encrypt` with
`Some("")` — the CLI's `DEFAULT_PASSWORD` — returns exactly the same
result as with `None`, because appending the empty password bytes to the
passphrase is the identity. -/
theorem privatebin_encrypt_empty_password
    (z : List Nat → List Nat) (aes : List Nat → List Nat → List Nat)
    (salt iv passphrase : List Nat) (plaintext : Option String)
    (formatter : String) (an ad : Option String) (compress burn od : Bool) :
  privatebin_encrypt z aes salt iv passphrase (some DEFAULT_PASSWORD) plaintext
      formatter an ad compress burn od
    = privatebin_encrypt z aes salt iv passphrase none plaintext
      formatter an ad compress burn od
  ∧ final_passphrase passphrase (some DEFAULT_PASSWORD)
      = final_passphrase passphrase none
  ∧ DEFAULT_PASSWORD = "" := by
  have h : final_passphrase passphrase (some DEFAULT_PASSWORD)
      = final_passphrase passphrase none := by
    simp [final_passphrase, DEFAULT_PASSWORD,
      show strBytes "" = ([] : List Nat) from rfl]
  refine ⟨?_, h, rfl⟩
  simp only [privatebin_encrypt, h]

/-! ## Length lemmas for the GCM construction -/

/-- `take16pad` always yields exactly 16 bytes. -/
theorem take16pad_length (b : List Nat) : (take16pad b).length = 16 := by
  simp [take16pad]

/-- `natToBytes16` always yields exactly 16 bytes. -/
theorem natToBytes16_length (x : Nat) : (natToBytes16 x).length = 16 := by
  simp [natToBytes16]

/-- Flattening constant-16-byte blocks multiplies the length by 16. -/
theorem length_flatMap_const16 {α : Type} (l : List α) (g : α → List Nat)
    (h : ∀ a ∈ l, (g a).length = 16) : (l.flatMap g).length = 16 * l.length := by
  induction l with
  | nil => simp
  | cons a l ih =>
    simp only [List.flatMap_cons, List.length_append, List.length_cons]
    rw [h a (by simp), ih (fun x hx => h x (by simp [hx]))]
    ring

/-- The CTR keystream provides exactly the requested number of bytes. -/
theorem gcmKeystream_length (aes : List Nat → List Nat → List Nat)
    (key nonce : List Nat) (n : Nat) :
    (gcmKeystream aes key nonce n).length = n := by
  unfold gcmKeystream
  rw [List.length_take,
    length_flatMap_const16 _ _ (fun a _ => take16pad_length _)]
  simp only [List.length_range]
  omega

/-- GCM ciphertext has exactly the plaintext's length. -/
theorem gcmCiphertext_length (aes : List Nat → List Nat → List Nat)
    (key nonce pt : List Nat) :
    (gcmCiphertext aes key nonce pt).length = pt.length := by
  simp [gcmCiphertext, xorBytes, gcmKeystream_length]

/-- The GCM authentication tag is exactly 16 bytes. -/
theorem gcmTag_length (aes : List Nat → List Nat → List Nat)
    (key nonce aad ct : List Nat) :
    (gcmTag aes key nonce aad ct).length = 16 := by
  simp [gcmTag, xorBytes, natToBytes16_length, take16pad_length]

/-- Sealed output is exactly 16 bytes longer than the plaintext. -/
theorem gcmSeal_length (aes : List Nat → List Nat → List Nat)
    (key nonce aad pt : List Nat) :
    (gcmSeal aes key nonce aad pt).length = pt.length + 16 := by
  simp [gcmSeal, gcmCiphertext_length, gcmTag_length]

/-! ## Claim C7: the AEAD sealing step -/

/-- C7 (amended): the sealing step fails iff the key is not 32 bytes or
the nonce is not 12 bytes; the failures are reported as
`PasteError::InvalidResponse` with messages "Failed to create AES key"
and "Invalid nonce" (the error enum has no `EncryptionError` variant);
otherwise sealing succeeds and returns the GCM ciphertext with the
16-byte tag appended, so the output is exactly 16 bytes longer than the
plaintext blob. -/
theorem aead_seal_spec (aes : List Nat → List Nat → List Nat)
    (key nonce aad pt : List Nat) :
  ((aead_seal aes key nonce aad pt).isOk = true
      ↔ (key.length = 32 ∧ nonce.length = 12))
  ∧ (key.length ≠ 32 →
      aead_seal aes key nonce aad pt
        = .error (.InvalidResponse "Failed to create AES key"))
  ∧ (key.length = 32 → nonce.length ≠ 12 →
      aead_seal aes key nonce aad pt = .error (.InvalidResponse "Invalid nonce"))
  ∧ (key.length = 32 → nonce.length = 12 →
      aead_seal aes key nonce aad pt
          = .ok (gcmCiphertext aes key nonce pt
              ++ gcmTag aes key nonce aad (gcmCiphertext aes key nonce pt))
        ∧ (gcmTag aes key nonce aad (gcmCiphertext aes key nonce pt)).length = 16
        ∧ (gcmSeal aes key nonce aad pt).length = pt.length + 16) := by
  refine ⟨?_, ?_, ?_, ?_⟩
  · unfold aead_seal
    split_ifs with h1 h2
    · simp [Except.isOk, Except.toBool, h1]
    · simp [Except.isOk, Except.toBool, h2]
    · simp only [Except.isOk, Except.toBool, true_iff]
      omega
  · intro h1; simp [aead_seal, h1]
  · intro h1 h2; simp [aead_seal, h1, h2]
  · intro h1 h2
    refine ⟨by simp [aead_seal, h1, h2, gcmSeal], gcmTag_length _ _ _ _ _,
      gcmSeal_length _ _ _ _ _⟩

/-- C7 witness: a concrete instantiation of the sealing contract. -/
theorem aead_seal_spec_witness :
  (aead_seal (fun _ b => b) (List.replicate 32 0) (List.replicate 12 0)
    [] [1, 2, 3]).isOk = true :=
  (aead_seal_spec (fun _ b => b) (List.replicate 32 0) (List.replicate 12 0)
    [] [1, 2, 3]).1.mpr ⟨by simp, by simp⟩

/-- C7 counterexample: a sealing failure is NOT reported as
`EncryptionError` — the error enum of the source has no such variant, and
the wrong-key-length failure is the `InvalidResponse` constructor, the
same constructor the code uses for malformed server responses. -/
theorem aead_seal_reports_InvalidResponse :
  aead_seal (fun _ b => b) [0, 0, 0] (List.replicate 12 0) [] []
    = .error (.InvalidResponse "Failed to create AES key")
  ∧ pasteErrorCtorName (.InvalidResponse "Failed to create AES key") = "InvalidResponse"
  ∧ ¬ ∃ e : PasteError,
      aead_seal (fun _ b => b) [0, 0, 0] (List.replicate 12 0) [] [] = .error e
      ∧ pasteErrorCtorName e = "EncryptionError" := by
  refine ⟨by decide, rfl, ?_⟩
  rintro ⟨e, he, hn⟩
  rw [show aead_seal (fun _ b => b) [0, 0, 0] (List.replicate 12 0) [] []
      = .error (.InvalidResponse "Failed to create AES key") by decide] at he
  injection he with h
  rw [← h] at hn
  exact absurd hn (by decide)

/-! ## Claim C4: no retries -/

/-- C4 counterexample: the network round trip is NOT retried.  With an
oracle whose first attempt fails at the transport level and whose second
attempt would succeed, `privatebin_send`'s network phase surfaces the
transport failure as `ApiError` immediately — a client that retried even
once (let alone up to a maximum of 3 with backoff) would have succeeded,
as the second conjunct shows. -/
theorem send_network_does_not_retry :
  privatebin_send_network retryProbeOracle
    = .error (.ApiError "connection reset by peer" none none)
  ∧ handle_response (retryProbeOracle 1) = .ok ("abc", "/?abc", "tok") := by
  exact ⟨by decide, by decide⟩

/-- C4 (amended): the network round trip is performed exactly once: the
result depends only on attempt 0 of the transport oracle, and a
transport-level failure of that single attempt is surfaced immediately as
`ApiError(msg, None, None)` with no retry and no backoff. -/
theorem send_network_single_attempt (o o2 : Nat → Except String HttpResponse)
    (h : o 0 = o2 0) :
  privatebin_send_network o = privatebin_send_network o2
  ∧ ∀ e, o 0 = .error e →
      privatebin_send_network o = .error (.ApiError e none none) := by
  constructor
  · unfold privatebin_send_network
    rw [h]
  · intro e he
    unfold privatebin_send_network
    rw [he]
    rfl

/-- C4 witness: the single-attempt behaviour at a concrete oracle. -/
theorem send_network_single_attempt_witness :
  privatebin_send_network (fun _ => .error "timeout")
    = .error (.ApiError "timeout" none none) :=
  (send_network_single_attempt (fun _ => .error "timeout")
    (fun _ => .error "timeout") rfl).2 "timeout" rfl

/-! ## Claim C8: non-zero application status -/

/-- C8 counterexample: the server's message is NOT split on '.' into a
list of discrete error strings: for the body
`{"status":1,"message":"bad request. try again."}` the `ApiError` carries
the message verbatim, periods included, as a single string. -/
theorem apiError_message_not_split :
  handle_response
      (.ok ⟨200, "\x7b\"status\":1,\"message\":\"bad request. try again.\"\x7d"⟩)
    = .error (.ApiError "bad request. try again." (some 200)
        (some "\x7b\"status\":1,\"message\":\"bad request. try again.\"\x7d"))
  ∧ "bad request. try again." ≠ "bad request" := by
  exact ⟨by decide, by decide⟩

/-- C8 (amended): whenever the parsed response has a present non-zero
`status` field, the network phase fails with `ApiError` without any
retry; when the HTTP status is not 500/502/503 the server's `message`
field is used verbatim (default "Unknown error"), with no splitting on
'.' and no `errors`-field extraction. -/
theorem nonzero_status_fails_without_retry (hs : Nat) (body : String)
    (pr : PasteResponse) (sc : Nat)
    (hparse : parsePasteResponse body = some pr)
    (hstatus : pr.status = some sc) (hnz : sc ≠ 0)
    (hblank : (body.data.all (fun c => c.isWhitespace)) = false) :
  handle_response (.ok { status := hs, body := body })
      = .error (.ApiError (errorStatusMessage hs pr.error_message)
          (some hs) (some body))
  ∧ (∀ o : Nat → Except String HttpResponse,
      o 0 = .ok { status := hs, body := body } →
      privatebin_send_network o
        = .error (.ApiError (errorStatusMessage hs pr.error_message)
            (some hs) (some body)))
  ∧ (hs ≠ 500 → hs ≠ 502 → hs ≠ 503 →
      errorStatusMessage hs pr.error_message
        = pr.error_message.getD "Unknown error") := by
  have hmain : handle_response (.ok { status := hs, body := body })
      = .error (.ApiError (errorStatusMessage hs pr.error_message)
          (some hs) (some body)) := by
    simp [handle_response, hblank, hparse, hstatus, hnz]
  refine ⟨hmain, fun o ho => ?_, fun h1 h2 h3 => ?_⟩
  · unfold privatebin_send_network
    rw [ho]
    exact hmain
  · simp [errorStatusMessage, h1, h2, h3]

/-- C8 witness: a concrete non-zero-status response. -/
theorem nonzero_status_fails_without_retry_witness :
  handle_response (.ok ⟨200, "\x7b\"status\":1,\"message\":\"oops\"\x7d"⟩)
    = .error (.ApiError "oops" (some 200)
        (some "\x7b\"status\":1,\"message\":\"oops\"\x7d")) := by
  have h := (nonzero_status_fails_without_retry 200 "\x7b\"status\":1,\"message\":\"oops\"\x7d"
    ⟨some 1, none, none, none, some "oops"⟩
    1 (by decide) rfl (by decide) (by decide)).1
  simpa [errorStatusMessage] using h

/-! ## Claim C9: the adata serialize/deserialize round trip

`privatebin_encrypt` passes the `prepare_associated_data` bytes as AEAD
AAD and then re-parses those same bytes into the `PasteAdata` struct that
is embedded in the POSTed `Payload`.  The lemmas below prove that parsing
the printed form recovers the struct exactly, so the re-serialized adata
is byte-identical to the authenticated bytes. -/

/-- `hexDigitChar` and `hexVal` are inverse on hexadecimal digit values. -/
theorem hexVal_hexDigitChar (n : Nat) (h : n < 16) :
    hexVal (hexDigitChar n) = some n := by
  interval_cases n <;> decide

/-- The string-body scanner undoes `escapeChar`, one character at a time. -/
theorem parseStringBody_escapeChar (c : Char) (t : List Char) (fuel : Nat) :
    parseStringBody (fuel + 1) (escapeChar c ++ t)
      = (parseStringBody fuel t).map (fun p => (c :: p.1, p.2)) := by
  unfold escapeChar
  split_ifs with h1 h2 h3 h4 h5 h6 h7 h8
  · subst h1; rfl
  · subst h2; rfl
  · subst h3; rfl
  · subst h4; rfl
  · subst h5; rfl
  · subst h6; rfl
  · subst h7; rfl
  · have hd1 : hexVal (hexDigitChar (c.toNat / 16)) = some (c.toNat / 16) :=
      hexVal_hexDigitChar _ (by omega)
    have hd2 : hexVal (hexDigitChar (c.toNat % 16)) = some (c.toNat % 16) :=
      hexVal_hexDigitChar _ (by omega)
    simp only [List.cons_append, List.nil_append]
    simp [parseStringBody, hd1, hd2]
    simp only [show hexVal '0' = some 0 from rfl, Option.some_bind]
    have hchar : Char.ofNat (((0 * 16 + 0) * 16 + c.toNat / 16) * 16 + c.toNat % 16) = c := by
      rw [show ((0 * 16 + 0) * 16 + c.toNat / 16) * 16 + c.toNat % 16 = c.toNat by omega,
        Char.ofNat_toNat]
    rw [hchar]
  · simp only [List.cons_append, List.nil_append, parseStringBody]
    rw [if_neg h1, if_neg h2, if_neg h8]
    simp

/-- The string-body scanner undoes `escapeList` up to the closing quote. -/
theorem parseStringBody_escapeList (s : List Char) : ∀ (fuel : Nat) (rest : List Char),
    s.length + 1 ≤ fuel →
    parseStringBody fuel (escapeList s ++ '"' :: rest) = some (s, rest) := by
  induction s with
  | nil =>
    intro fuel rest h
    cases fuel with
    | zero => omega
    | succ f => rfl
  | cons c cs ih =>
    intro fuel rest h
    cases fuel with
    | zero => simp [List.length_cons] at h
    | succ f =>
      have hsplit : escapeList (c :: cs) ++ '"' :: rest
          = escapeChar c ++ (escapeList cs ++ '"' :: rest) := by
        simp [escapeList]
      rw [hsplit, parseStringBody_escapeChar,
        ih f rest (by simp [List.length_cons] at h; omega)]
      rfl

/-- Escaping never shortens a character. -/
theorem escapeChar_length_pos (c : Char) : 1 ≤ (escapeChar c).length := by
  unfold escapeChar
  split_ifs <;> simp

/-- Escaping never shortens a string. -/
theorem le_escapeList_length (s : List Char) : s.length ≤ (escapeList s).length := by
  induction s with
  | nil => simp [escapeList]
  | cons c cs ih =>
    have := escapeChar_length_pos c
    simp only [escapeList, List.length_append, List.length_cons]
    omega

/-- Rebuilding a string from its character list is the identity. -/
theorem stringMk_data (s : String) : String.mk s.data = s := rfl

/-- Parsing a printed JSON string literal recovers the string. -/
theorem parseJsonStringLit_norm (l : List Char) (rest : List Char) :
    parseJsonStringLit ('"' :: (escapeList l ++ '"' :: rest)) = some (String.mk l, rest) := by
  show (parseStringBody ((escapeList l ++ '"' :: rest).length + 1)
    (escapeList l ++ '"' :: rest)).map (fun p => (String.mk p.1, p.2)) = _
  rw [parseStringBody_escapeList l _ rest (by
    have := le_escapeList_length l
    simp only [List.length_append, List.length_cons]
    omega)]
  rfl

/-- One remaining array element: parse it and stop. -/
theorem parseStringsSep_one_norm (l : List Char) (rest : List Char) :
    parseStringsSep 1 ('"' :: (escapeList l ++ '"' :: rest)) = some ([String.mk l], rest) := by
  simp only [parseStringsSep, parseJsonStringLit_norm]
  rfl

/-- At least two remaining array elements: parse one, consume the comma,
recurse. -/
theorem parseStringsSep_cons_norm (n : Nat) (hn : 2 ≤ n) (l : List Char) (rest : List Char) :
    parseStringsSep n ('"' :: (escapeList l ++ '"' :: ',' :: rest))
      = (parseStringsSep (n - 1) rest).map (fun p => (String.mk l :: p.1, p.2)) := by
  obtain ⟨m, rfl⟩ : ∃ m, n = m + 2 := ⟨n - 2, by omega⟩
  simp only [parseStringsSep, parseJsonStringLit_norm,
    show m + 2 - 1 = m + 1 from by omega]

set_option maxHeartbeats 1000000 in
/-- Parsing the serialized adata recovers the `PasteAdata` struct exactly. -/
theorem parsePasteAdata_roundtrip (iv salt : List Nat) (fmt : String)
    (od bd : Bool) (comp : String) :
    parsePasteAdata (printPasteAdata (pasteAdataOf iv salt fmt od bd comp))
      = some (pasteAdataOf iv salt fmt od bd comp) := by
  cases od <;> cases bd <;>
    simp [parsePasteAdata, printPasteAdata, pasteAdataOf, serializeField,
      String.data_append, joinComma, jsonStringLit, stringMk_data,
      parseJsonStringLit_norm, parseStringsSep_cons_norm, parseStringsSep_one_norm,
      expectChars, parseNatLit, digitsVal,
      Option.guard, KDF_ITERATIONS, KDF_KEYSIZE, ADATA_SIZE, natToString,
      decDigitsAux]

/-- C9: deserializing the byte string produced by
`prepare_associated_data` into `PasteAdata` and re-serializing it with the
same serializer yields exactly the original bytes; consequently the adata
struct embedded in the POSTed `Payload` (obtained in `privatebin_encrypt`
by re-parsing those very bytes) serializes inside the payload document to
the identical bytes that were passed as AEAD additional authenticated
data. -/
theorem adata_deserialize_reserialize_id (iv salt : List Nat) (fmt : String)
    (od bd : Bool) (comp : String) :
  parsePasteAdata (printPasteAdata (pasteAdataOf iv salt fmt od bd comp))
      = some (pasteAdataOf iv salt fmt od bd comp)
  ∧ (parsePasteAdata (printPasteAdata (pasteAdataOf iv salt fmt od bd comp))).map
        (fun a => strBytes (printPasteAdata a))
      = some (prepare_associated_data iv salt fmt od bd comp)
  ∧ (∀ (ct expire : String) (a : PasteAdata),
      parsePasteAdata (printPasteAdata (pasteAdataOf iv salt fmt od bd comp)) = some a →
      printPayload { v := 2, adata := a, ct := ct, meta := { expire := expire } }
        = "\x7b\"v\":2,\"adata\":" ++ printPasteAdata (pasteAdataOf iv salt fmt od bd comp)
          ++ ",\"ct\":" ++ jsonStringLit ct
          ++ ",\"meta\":\x7b\"expire\":" ++ jsonStringLit expire ++ "\x7d\x7d") := by
  refine ⟨parsePasteAdata_roundtrip iv salt fmt od bd comp, ?_, ?_⟩
  · rw [parsePasteAdata_roundtrip]
    rfl
  · intro ct expire a ha
    rw [parsePasteAdata_roundtrip] at ha
    injection ha with ha
    subst ha
    apply String.ext
    simp [printPayload, serializeField, natToString, decDigitsAux,
      String.data_append]

/-- C9 witness: the payload-embedding consequence at a concrete input. -/
theorem adata_deserialize_reserialize_id_witness :
  printPayload ⟨2, pasteAdataOf [] [] "plaintext" false false "zlib", "CT", ⟨"1month"⟩⟩
    = "\x7b\"v\":2,\"adata\":" ++ printPasteAdata (pasteAdataOf [] [] "plaintext" false false "zlib")
      ++ ",\"ct\":" ++ jsonStringLit "CT"
      ++ ",\"meta\":\x7b\"expire\":" ++ jsonStringLit "1month" ++ "\x7d\x7d" :=
  (adata_deserialize_reserialize_id [] [] "plaintext" false false "zlib").2.2
    "CT" "1month" _ (by decide)
